import Mathlib

/-!
Shallow embedding of the label-to-playlist pipeline implemented in `app.js`
of the spotify-playlist-creator repository.

The remote platform (Spotify's web API, reached through axios) is modelled as
an environment of oracles: each outbound HTTP call is a function returning
`Except ApiError _`, where `Except.error` stands for axios throwing on a
non-success HTTP response.  `io.emit('progress', ...)` events and the outbound
API calls are collected into explicit lists so that ordering and absence of
calls can be stated.  The `do/while` pagination loop reads the reported
`total` from every response, so an adversarial platform can keep it running
forever; the loop therefore takes an explicit fuel argument and returns `none`
when the fuel runs out (the source has no such guard, a fact §9 of the spec
notes; every theorem about terminating runs is conditional on enough fuel).

Calendar dates: the comparator in `app.js` calls `new Date(...)` on the ISO
release-date string and compares the resulting time values.  Dates are
embedded post-parse, as integer time values (`new Date(s).getTime()`), which
is faithful for the valid ISO dates the data-model invariant guarantees.
-/

/-- An upstream HTTP failure: what axios throws on a non-success response.
The payload carries the upstream error body. -/
structure ApiError where
  payload : String
deriving DecidableEq, Repr

/-- Body of a successful token-endpoint response.  JavaScript reads
`response.data.access_token`; a body without that field yields `undefined`,
modelled as `none`. -/
structure TokenResponse where
  access_token : Option String
deriving DecidableEq, Repr

/-- Body of the profile endpoint response (`/v1/me`). -/
structure UserProfile where
  id : String
  display_name : String
deriving DecidableEq, Repr

/-- One release, as returned by the search endpoint.  `release_date` is the
parsed time value of the album's ISO release-date string. -/
structure Album where
  id : String
  name : String
  release_date : Int
deriving DecidableEq, Repr

/-- One item of an album-tracks response. -/
structure RawTrack where
  uri : String
  track_number : Int
deriving DecidableEq, Repr

/-- A collected track after the annotation loop in the callback route:
`track.albumReleaseDate = album.release_date` and
`track.albumTrackNumber = track.track_number`. -/
structure Track where
  uri : String
  albumReleaseDate : Int
  albumTrackNumber : Int
deriving DecidableEq, Repr

/-- Body of one search response: `response.data.albums`. -/
structure SearchPage where
  items : List Album
  total : Nat
deriving DecidableEq, Repr

/-- Body of the create-playlist response. -/
structure Playlist where
  id : String
  name : String
  external_url : String
deriving DecidableEq, Repr

/-- One `io.emit('progress', {message, percent, playlist?})` event. -/
structure ProgressEvent where
  message : String
  percent : Nat
  playlist : Option String := none
deriving DecidableEq, Repr

/-- An outbound platform API call, as issued by the pipeline. -/
inductive ApiCall where
  | tokenExchange
  | profile
  | search (query : String) (offset : Nat)
  | albumTracks (albumId : String)
  | createPlaylist (userId : String)
  | addTracks (uris : List String)
deriving DecidableEq, Repr

/-- The terminal `res.send` of the callback route: `noCode` is the
"Error: No authorization code provided." response, `noTracksFound` the
"No tracks found." response, `failed` the catch-block response, and
`completed` the success page (carrying the playlist URL emitted at 100%). -/
inductive RunOutcome where
  | noCode
  | noTracksFound
  | failed (message : String)
  | completed (playlistUrl : String)
deriving DecidableEq, Repr

/-- Everything one request to the callback route produces: the progress
events emitted, the platform calls issued, and the terminal response. -/
structure RunResult where
  events : List ProgressEvent
  calls : List ApiCall
  outcome : RunOutcome
deriving DecidableEq, Repr

/-- The remote platform: one oracle per endpoint the pipeline calls.
Each takes the Bearer token the code would send (`Option` because a token
response may lack the field) plus the request data. -/
structure Env where
  tokenExchange : Except ApiError TokenResponse
  profile : Option String → Except ApiError UserProfile
  search : Option String → String → Nat → Except ApiError SearchPage
  albumTracks : Option String → String → Except ApiError (List RawTrack)
  createPlaylist : Option String → String → String → Except ApiError Playlist
  addTracks : Option String → String → List String → Except ApiError Unit

/-- Function `getAccessToken` from `app.js`: on an axios error the error is re-thrown
unchanged; on success it returns `response.data.access_token` without
checking that the field is present. -/
def getAccessToken (resp : Except ApiError TokenResponse) :
    Except ApiError (Option String) :=
  match resp with
  | .error e => .error e
  | .ok data => .ok data.access_token

/-- The search query string built in `searchAlbumsByLabel`:
`label:"<label>"`. -/
def searchQuery (label : String) : String :=
  "label:\"" ++ label ++ "\""

/-- Message of the per-page progress event inside `searchAlbumsByLabel`. -/
def fetchedAlbumsMsg (count total : Nat) : String :=
  "Fetched " ++ toString count ++ " of " ++ toString total ++ " albums..."

/-- The `do { ... } while (offset < total)` pagination loop of
`searchAlbumsByLabel`.  `page offset` is the search request at that offset;
the accumulated albums, the offsets requested, and the per-page progress
events are threaded exactly as in the source.  Returns `none` when the fuel
runs out (the unguarded-divergence case), `some (Except.error e)` when a page
request throws, and `some (Except.ok albums)` on normal exit. -/
def searchLoop (page : Nat → Except ApiError SearchPage) :
    Nat → List Album → Nat →
    List ProgressEvent × List Nat × Option (Except ApiError (List Album))
  | 0, _, _ => ([], [], none)
  | fuel + 1, albums, offset =>
    match page offset with
    | .error e => ([], [offset], some (.error e))
    | .ok resp =>
      let albums2 := albums ++ resp.items
      let offset2 := offset + 50
      let ev : ProgressEvent := ⟨fetchedAlbumsMsg albums2.length resp.total, 40, none⟩
      if offset2 < resp.total then
        let r := searchLoop page fuel albums2 offset2
        (ev :: r.1, offset :: r.2.1, r.2.2)
      else
        ([ev], [offset], some (.ok albums2))

/-- Message of the per-album progress event in the collection loop. -/
def processedAlbumMsg (name : String) : String :=
  "Processed album \"" ++ name ++ "\"."

/-- The per-album collection loop of the callback route: for each album,
fetch its tracks, stamp each with the album's release date and its own track
number, and append to the accumulator.  A failed fetch aborts the loop,
discarding the whole collection. -/
def collectTracks (fetch : String → Except ApiError (List RawTrack)) :
    List Album →
    List ProgressEvent × List String × Except ApiError (List Track)
  | [] => ([], [], .ok [])
  | album :: rest =>
    match fetch album.id with
    | .error e => ([], [album.id], .error e)
    | .ok items =>
      let annotated : List Track := items.map fun t =>
        { uri := t.uri
          albumReleaseDate := album.release_date
          albumTrackNumber := t.track_number }
      let r := collectTracks fetch rest
      (⟨processedAlbumMsg album.name, 45, none⟩ :: r.1,
       album.id :: r.2.1,
       r.2.2.map fun later => annotated ++ later)

/-- The comparator passed to `allTracks.sort`: equal parsed dates compare by
track number, otherwise by the date difference. -/
def trackCmp (a b : Track) : Int :=
  if a.albumReleaseDate = b.albumReleaseDate then
    a.albumTrackNumber - b.albumTrackNumber
  else
    a.albumReleaseDate - b.albumReleaseDate

/-- Whether `a` may stay before `b` under the comparator (value ≤ 0). -/
def trackLe (a b : Track) : Bool :=
  trackCmp a b ≤ 0

/-- The sort call `allTracks.sort(comparator)`: a stable sort under the comparator
(JavaScript's `Array.prototype.sort` is specified stable). -/
def sortTracks (l : List Track) : List Track :=
  l.mergeSort trackLe

/-- Message of the per-batch progress event in `addTracksToPlaylist`
(`batchIdx` counts batches from 0; the source computes `⌊i/100⌋ + 1`). -/
def addedBatchMsg (batchIdx : Nat) : String :=
  "Added batch " ++ toString (batchIdx + 1) ++ " of tracks."

/-- The batching loop of `addTracksToPlaylist`: slices of at most 100 URIs,
posted strictly in order; a failed post aborts the loop.  Returns the events
emitted, the batches posted (in order), and the final result. -/
def addTracksToPlaylist (post : List String → Except ApiError Unit) :
    List String → Nat →
    List ProgressEvent × List (List String) × Except ApiError Unit
  | [], _ => ([], [], .ok ())
  | u :: rest, batchIdx =>
    let batch := (u :: rest).take 100
    match post batch with
    | .error e => ([], [batch], .error e)
    | .ok _ =>
      let r := addTracksToPlaylist post ((u :: rest).drop 100) (batchIdx + 1)
      (⟨addedBatchMsg batchIdx, 90, none⟩ :: r.1, batch :: r.2.1, r.2.2)
termination_by l _ => l.length
decreasing_by simp; omega

/-- Message of the 30% progress event. -/
def loggedInMsg (user : UserProfile) : String :=
  "Logged in as " ++ user.display_name ++ " (" ++ user.id ++ ")."

/-- Message of the 40% progress event after the search returns. -/
def foundAlbumsMsg (count : Nat) (label : String) : String :=
  "Found " ++ toString count ++ " albums for label \"" ++ label ++ "\"."

/-- Message of the 50% progress event on the empty-collection early return. -/
def noTracksMsg (label : String) : String :=
  "No tracks found for label \"" ++ label ++ "\"."

/-- Message of the 65% progress event after sorting. -/
def totalTracksMsg (count : Nat) : String :=
  "Total tracks to add: " ++ toString count ++ "."

/-- Message of the 80% progress event after playlist creation. -/
def createdPlaylistMsg (name : String) : String :=
  "Created playlist \"" ++ name ++ "\"."

/-- Body of the catch-block response of the callback route. -/
def errorProcessingMsg : String :=
  "Error during processing. Check the server logs for details."

/-- Stage of the callback route from playlist creation on: sort the collected
tracks, create the playlist, then append the sorted URIs in batches.
`events2`/`calls2` are the events and calls accumulated so far. -/
def playlistStage (env : Env) (accessToken : Option String)
    (userId label : String) (events2 : List ProgressEvent)
    (calls2 : List ApiCall) (allTracks : List Track) : RunResult :=
  let sorted := sortTracks allTracks
  let ev65 : ProgressEvent := ⟨totalTracksMsg allTracks.length, 65, none⟩
  let trackURIs := sorted.map Track.uri
  match env.createPlaylist accessToken userId label with
  | .error _ =>
    ⟨events2 ++ [ev65], calls2 ++ [ApiCall.createPlaylist userId],
     .failed errorProcessingMsg⟩
  | .ok pl =>
    let ev80 : ProgressEvent := ⟨createdPlaylistMsg pl.name, 80, none⟩
    let a := addTracksToPlaylist (env.addTracks accessToken pl.id) trackURIs 0
    let events3 := events2 ++ [ev65, ev80] ++ a.1
    let calls3 := calls2 ++ [ApiCall.createPlaylist userId] ++
      a.2.1.map ApiCall.addTracks
    match a.2.2 with
    | .error _ => ⟨events3, calls3, .failed errorProcessingMsg⟩
    | .ok _ =>
      ⟨events3 ++
        [⟨"All tracks added to the playlist successfully.", 90, none⟩,
         ⟨"Processing complete. Check the main page for progress updates.",
           100, some pl.external_url⟩],
       calls3, .completed pl.external_url⟩

/-- Stage of the callback route from track collection on: fetch every
album's tracks, return early when none were collected, otherwise hand the
collection to the playlist stage. -/
def collectStage (env : Env) (accessToken : Option String)
    (userId label : String) (albumsCount : Nat)
    (events1 : List ProgressEvent) (calls1 : List ApiCall)
    (albums : List Album) : RunResult :=
  let ev40 : ProgressEvent := ⟨foundAlbumsMsg albumsCount label, 40, none⟩
  let c := collectTracks (env.albumTracks accessToken) albums
  let events2 := events1 ++ [ev40] ++ c.1
  let calls2 := calls1 ++ c.2.1.map ApiCall.albumTracks
  match c.2.2 with
  | .error _ => ⟨events2, calls2, .failed errorProcessingMsg⟩
  | .ok allTracks =>
    if allTracks.isEmpty then
      ⟨events2 ++ [⟨noTracksMsg label, 50, none⟩], calls2, .noTracksFound⟩
    else
      playlistStage env accessToken userId label events2 calls2 allTracks

/-- The callback route (`app.get('/callback')`): the whole pipeline run.
`code` is `req.query.code`, `label` the process-wide `currentLabel`, `fuel`
bounds the pagination loop.  Any thrown error lands in the catch block, which
sends the single generic failure response. -/
def runCallback (env : Env) (fuel : Nat) (code : Option String)
    (label : String) : Option RunResult :=
  match code with
  | none => some ⟨[], [], .noCode⟩
  | some _ =>
    let ev10 : ProgressEvent := ⟨"Received authorization code.", 10, none⟩
    match getAccessToken env.tokenExchange with
    | .error _ => some ⟨[ev10], [.tokenExchange], .failed errorProcessingMsg⟩
    | .ok accessToken =>
      let ev20 : ProgressEvent := ⟨"Access token received.", 20, none⟩
      match env.profile accessToken with
      | .error _ =>
        some ⟨[ev10, ev20], [.tokenExchange, .profile],
          .failed errorProcessingMsg⟩
      | .ok user =>
        let ev30 : ProgressEvent := ⟨loggedInMsg user, 30, none⟩
        let query := searchQuery label
        let s := searchLoop (env.search accessToken query) fuel [] 0
        let events1 := [ev10, ev20, ev30] ++ s.1
        let calls1 := [ApiCall.tokenExchange, ApiCall.profile] ++
          s.2.1.map (ApiCall.search query)
        match s.2.2 with
        | none => none
        | some (.error _) => some ⟨events1, calls1, .failed errorProcessingMsg⟩
        | some (.ok albums) =>
          some (collectStage env accessToken user.id label albums.length
            events1 calls1 albums)

/-! ## Properties of the comparator and the sort (claims C1, C2) -/

/-- The comparator relation is transitive. -/
theorem trackLe_trans : ∀ (a b c : Track), trackLe a b → trackLe b c → trackLe a c := by
  intro a b c hab hbc
  simp only [trackLe, trackCmp, decide_eq_true_eq] at hab hbc ⊢
  split_ifs at hab hbc ⊢ <;> omega

/-- The comparator relation is total. -/
theorem trackLe_total : ∀ (a b : Track), trackLe a b || trackLe b a := by
  intro a b
  simp only [trackLe, trackCmp, Bool.or_eq_true, decide_eq_true_eq]
  split_ifs <;> omega

/-- A class of mutually tied tracks is left untouched by the sort: the
filter by any predicate selecting only tied tracks commutes with sorting. -/
theorem sortTracks_filter_eq (p : Track → Bool)
    (hp : ∀ a b, p a → p b → trackLe a b) (l : List Track) :
    (sortTracks l).filter p = l.filter p := by
  have hmem : ∀ t ∈ l.filter p, p t := fun t ht => List.of_mem_filter ht
  have hpw : (l.filter p).Pairwise (fun a b => trackLe a b = true) := by
    apply List.pairwise_of_forall_mem_list
    intro a ha b hb
    exact hp a b (hmem a ha) (hmem b hb)
  have hsub : List.Sublist (l.filter p) (sortTracks l) :=
    List.sublist_mergeSort trackLe_trans trackLe_total hpw (List.filter_sublist l)
  have hidem : (l.filter p).filter p = l.filter p :=
    List.filter_eq_self.mpr hmem
  have hsub2 : List.Sublist (l.filter p) ((sortTracks l).filter p) := by
    have h2 := hsub.filter p
    rwa [hidem] at h2
  have hlen : ((sortTracks l).filter p).length = (l.filter p).length :=
    ((List.mergeSort_perm l trackLe).filter p).length_eq
  exact (hsub2.eq_of_length hlen.symm).symm

/-- C1: the Chronological Sorter permutes its input; adjacent pairs are
ordered by date then track number; and tracks tied on both keys keep their
encounter order (stability, stated as: filtering any (date, number) class
commutes with sorting). -/
theorem sortTracks_correct (l : List Track) :
    (sortTracks l).Perm l ∧
    List.Chain'
      (fun x y => x.albumReleaseDate < y.albumReleaseDate ∨
        (x.albumReleaseDate = y.albumReleaseDate ∧
         x.albumTrackNumber ≤ y.albumTrackNumber)) (sortTracks l) ∧
    (∀ d n : Int,
      (sortTracks l).filter
          (fun t => decide (t.albumReleaseDate = d ∧ t.albumTrackNumber = n)) =
        l.filter
          (fun t => decide (t.albumReleaseDate = d ∧ t.albumTrackNumber = n))) := by
  refine ⟨List.mergeSort_perm l trackLe, ?_, ?_⟩
  · have h := List.sorted_mergeSort trackLe_trans trackLe_total l
    apply (List.Pairwise.chain' h).imp
    intro a b hab
    simp only [trackLe, trackCmp, decide_eq_true_eq] at hab
    split_ifs at hab with hd
    · exact Or.inr ⟨hd, by omega⟩
    · exact Or.inl (by omega)
  · intro d n
    apply sortTracks_filter_eq
    intro a b ha hb
    simp only [decide_eq_true_eq] at ha hb
    simp [trackLe, trackCmp, ha.1, ha.2, hb.1, hb.2]

/-- The input of the spec's tie-break example: two releases sharing one
release date, R1 with tracks 1, 2, 3 and R2 with tracks 1, 2, collected in
order R1 then R2.  Dates are equal time values; URIs name the tracks. -/
def tieBreakInput : List Track :=
  [⟨"R1t1", 0, 1⟩, ⟨"R1t2", 0, 2⟩, ⟨"R1t3", 0, 3⟩, ⟨"R2t1", 0, 1⟩, ⟨"R2t2", 0, 2⟩]

/-- C2 counterexample: on the spec's example the sorter does NOT return the
release-grouped sequence [R1t1, R1t2, R1t3, R2t1, R2t2] the spec claims. -/
theorem sortTracks_tieBreak_counterexample :
    sortTracks tieBreakInput ≠
      [⟨"R1t1", 0, 1⟩, ⟨"R1t2", 0, 2⟩, ⟨"R1t3", 0, 3⟩,
       ⟨"R2t1", 0, 1⟩, ⟨"R2t2", 0, 2⟩] := by
  simp [sortTracks, tieBreakInput, List.mergeSort, trackLe, trackCmp]

/-- C2 amended: with equal dates the comparator orders by track number across
both releases, and the stable sort keeps R1's track before R2's on equal
numbers, so sorting yields [R1t1, R2t1, R1t2, R2t2, R1t3]. -/
theorem sortTracks_tieBreak :
    sortTracks tieBreakInput =
      [⟨"R1t1", 0, 1⟩, ⟨"R2t1", 0, 1⟩, ⟨"R1t2", 0, 2⟩,
       ⟨"R2t2", 0, 2⟩, ⟨"R1t3", 0, 3⟩] := by
  simp [sortTracks, tieBreakInput, List.mergeSort, trackLe, trackCmp]

/-! ## Properties of the search paginator (claims C3, C10) -/

/-- A well-behaved platform holding a fixed result list: the page at offset
`k` is the window of 50 results starting at `k`, and the reported total is
the full result count.  Every response sequence satisfying C3's hypotheses
(constant total, page at offset `k` holding `min (50, T - k)` globally
distinct releases) has this shape, with `results` its concatenation. -/
def windowPage (results : List Album) (k : Nat) : Except ApiError SearchPage :=
  .ok ⟨(results.drop k).take 50, results.length⟩

/-- Loop invariant for the well-behaved platform: starting from offset `o`
with the first `o` results accumulated, the loop ends with exactly the full
result list, given fuel for the remaining pages. -/
theorem searchLoop_window (results : List Album) :
    ∀ (fuel offset : Nat), 1 ≤ fuel → results.length ≤ offset + 50 * fuel →
      (searchLoop (windowPage results) fuel (results.take offset) offset).2.2 =
        some (Except.ok results) := by
  intro fuel
  induction fuel with
  | zero => intro offset h1 h2; omega
  | succ f ih =>
    intro offset h1 h2
    simp only [searchLoop, windowPage]
    have hacc : results.take offset ++ (results.drop offset).take 50 =
        results.take (offset + 50) := (List.take_add results offset 50).symm
    by_cases hcond : offset + 50 < results.length
    · rw [if_pos hcond]
      simp only []
      rw [hacc]
      exact ih (offset + 50) (by omega) (by omega)
    · rw [if_neg hcond]
      simp only []
      rw [hacc, List.take_of_length_le (by omega)]

/-- C3: for every response sequence with constant reported total `T` where
the page at offset `k` holds the `min (50, T - k)` distinct releases starting
at `k` (modelled by `windowPage results`, `T = results.length`), the
paginator returns exactly the `T` releases, without duplicates; in
particular, for `results = []` it returns the empty list and does not fail. -/
theorem searchPaginator_complete (results : List Album) (fuel : Nat)
    (h1 : 1 ≤ fuel) (h2 : results.length ≤ 50 * fuel) :
    (searchLoop (windowPage results) fuel [] 0).2.2 =
      some (Except.ok results) := by
  have h := searchLoop_window results fuel 0 h1 (by omega)
  simpa using h

/-- Witness for C3 at a one-release catalog with the minimum fuel. -/
theorem searchPaginator_complete_witness :
    (searchLoop (windowPage [⟨"a", "A", 0⟩]) 1 [] 0).2.2 =
      some (Except.ok [⟨"a", "A", 0⟩]) :=
  searchPaginator_complete [⟨"a", "A", 0⟩] 1 (by decide) (by decide)

/-- Splitting the arithmetic-progression offset list at its head. -/
theorem range_offset_shift (o n : Nat) :
    (List.range (n + 1)).map (fun i => o + 50 * i) =
      o :: (List.range n).map (fun i => o + 50 + 50 * i) := by
  have hhead : o + 50 * 0 = o := by simp
  have htail : (List.range n).map ((fun i => o + 50 * i) ∘ Nat.succ) =
      (List.range n).map (fun i => o + 50 + 50 * i) := by
    apply List.map_congr_left
    intro i _
    show o + 50 * (i + 1) = o + 50 + 50 * i
    omega
  rw [List.range_succ_eq_map, List.map_cons, List.map_map, hhead, htail]

/-- Request-count invariant for a platform reporting a constant total `T`
(page contents arbitrary): from offset `o` the loop terminates and requests
exactly the offsets `o, o + 50, ...`, `max 1 ((T - o + 49) / 50)` of them. -/
theorem searchLoop_constTotal (page : Nat → Except ApiError SearchPage)
    (T : Nat) (htot : ∀ k, ∃ items, page k = .ok ⟨items, T⟩) :
    ∀ (fuel offset : Nat) (albums : List Album),
      1 ≤ fuel → T ≤ offset + 50 * fuel →
      ∃ evs out,
        searchLoop page fuel albums offset =
          (evs,
           (List.range (max 1 ((T - offset + 49) / 50))).map
             (fun i => offset + 50 * i),
           some (Except.ok out)) := by
  intro fuel
  induction fuel with
  | zero => intro offset albums h1 h2; omega
  | succ f ih =>
    intro offset albums h1 h2
    obtain ⟨items, hk⟩ := htot offset
    simp only [searchLoop, hk]
    by_cases hcond : offset + 50 < T
    · rw [if_pos hcond]
      obtain ⟨evs, out, hrec⟩ := ih (offset + 50) (albums ++ items)
        (by omega) (by omega)
      have harith : max 1 ((T - offset + 49) / 50) =
          max 1 ((T - (offset + 50) + 49) / 50) + 1 := by omega
      rw [harith, range_offset_shift]
      exact ⟨⟨fetchedAlbumsMsg (albums ++ items).length T, 40, none⟩ :: evs,
        out, by rw [hrec]⟩
    · rw [if_neg hcond]
      have harith : max 1 ((T - offset + 49) / 50) = 1 := by omega
      rw [harith]
      have hrange : (List.range 1).map (fun i => offset + 50 * i) = [offset] := by
        simp [List.range_succ]
      rw [hrange]
      exact ⟨[⟨fetchedAlbumsMsg (albums ++ items).length T, 40, none⟩],
        albums ++ items, rfl⟩

/-- C10: whenever the platform reports the same total `T` on every page
(whatever the page items are), the paginator terminates and requests exactly
the offsets `0, 50, 100, ...` — `max 1 (ceil (T / 50))` requests in all, the
offset advancing by 50 per page; it stops once the offset reaches `T`, even
if fewer than `T` items were accumulated. -/
theorem searchPaginator_requestCount (page : Nat → Except ApiError SearchPage)
    (T : Nat) (htot : ∀ k, ∃ items, page k = .ok ⟨items, T⟩)
    (fuel : Nat) (hf : max 1 ((T + 49) / 50) ≤ fuel) :
    ∃ evs out,
      searchLoop page fuel [] 0 =
        (evs,
         (List.range (max 1 ((T + 49) / 50))).map (fun i => 50 * i),
         some (Except.ok out)) := by
  obtain ⟨evs, out, h⟩ := searchLoop_constTotal page T htot fuel 0 []
    (by omega) (by omega)
  refine ⟨evs, out, ?_⟩
  simpa using h

/-- Witness for C10: constant total 7 with empty pages — one request is made
even though no items ever accumulate. -/
theorem searchPaginator_requestCount_witness :
    ∃ evs out,
      searchLoop (fun _ => .ok ⟨[], 7⟩) 1 [] 0 =
        (evs,
         (List.range (max 1 ((7 + 49) / 50))).map (fun i => 50 * i),
         some (Except.ok out)) :=
  searchPaginator_requestCount (fun _ => .ok ⟨[], 7⟩) 7
    (fun _ => ⟨[], rfl⟩) 1 (by decide)

/-! ## Properties of the playlist writer (claim C4) -/

/-- One unfolding of the batching loop when the post succeeds. -/
theorem addTracks_ok_cons (u : String) (rest : List String) (k : Nat) :
    (addTracksToPlaylist (fun _ => Except.ok ()) (u :: rest) k).2.1 =
      (u :: rest).take 100 ::
        (addTracksToPlaylist (fun _ => Except.ok ())
          ((u :: rest).drop 100) (k + 1)).2.1 := by
  simp [addTracksToPlaylist]

/-- Batching invariant: with every post succeeding, the batches posted from
any starting index concatenate back to the input, number `⌈N/100⌉`, and each
hold at most 100 URIs. -/
theorem addTracks_batch_spec :
    ∀ (n : Nat) (uris : List String) (k : Nat), uris.length ≤ n →
      (addTracksToPlaylist (fun _ => Except.ok ()) uris k).2.1.flatten = uris ∧
      (addTracksToPlaylist (fun _ => Except.ok ()) uris k).2.1.length =
        (uris.length + 99) / 100 ∧
      ∀ b ∈ (addTracksToPlaylist (fun _ => Except.ok ()) uris k).2.1,
        b.length ≤ 100 := by
  intro n
  induction n with
  | zero =>
    intro uris k h
    have he : uris = [] := List.eq_nil_of_length_eq_zero (Nat.le_zero.mp h)
    subst he
    simp [addTracksToPlaylist]
  | succ n ih =>
    intro uris k h
    cases uris with
    | nil => simp [addTracksToPlaylist]
    | cons u rest =>
      have hlen : ((u :: rest).drop 100).length ≤ n := by
        simp only [List.length_drop, List.length_cons] at h ⊢
        omega
      obtain ⟨hj, hl, hb⟩ := ih ((u :: rest).drop 100) (k + 1) hlen
      rw [addTracks_ok_cons]
      refine ⟨?_, ?_, ?_⟩
      · rw [List.flatten_cons, hj, List.take_append_drop]
      · simp only [List.length_cons, hl, List.length_drop]
        omega
      · intro b hb2
        rcases List.mem_cons.mp hb2 with hb3 | hb3
        · subst hb3
          simp only [List.length_take, List.length_cons]
          omega
        · exact hb b hb3

/-- For 250 input URIs the posted batches have sizes 100, 100, 50, in that
order. -/
theorem addTracks_replicate250 :
    ((addTracksToPlaylist (fun _ => Except.ok ())
        (List.replicate 250 "u") 0).2.1).map List.length = [100, 100, 50] := by
  rw [show (List.replicate 250 "u") = "u" :: List.replicate 249 "u" from rfl]
  rw [addTracks_ok_cons]
  rw [show ("u" :: List.replicate 249 "u").drop 100 = List.replicate 150 "u" by
    rw [show ("u" :: List.replicate 249 "u") = List.replicate 250 "u" from rfl]
    rw [List.drop_replicate]]
  rw [show (List.replicate 150 "u") = "u" :: List.replicate 149 "u" from rfl]
  rw [addTracks_ok_cons]
  rw [show ("u" :: List.replicate 149 "u").drop 100 = List.replicate 50 "u" by
    rw [show ("u" :: List.replicate 149 "u") = List.replicate 150 "u" from rfl]
    rw [List.drop_replicate]]
  rw [show (List.replicate 50 "u") = "u" :: List.replicate 49 "u" from rfl]
  rw [addTracks_ok_cons]
  rw [show ("u" :: List.replicate 49 "u").drop 100 = ([] : List String) by
    rw [show ("u" :: List.replicate 49 "u") = List.replicate 50 "u" from rfl]
    rw [List.drop_replicate]
    norm_num]
  rw [show (addTracksToPlaylist (fun _ => Except.ok ()) ([] : List String) 3).2.1 = [] by
    simp [addTracksToPlaylist]]
  rw [show ("u" :: List.replicate 249 "u").take 100 = List.replicate 100 "u" by
    rw [show ("u" :: List.replicate 249 "u") = List.replicate 250 "u" from rfl,
      List.take_replicate]
    norm_num]
  rw [show ("u" :: List.replicate 149 "u").take 100 = List.replicate 100 "u" by
    rw [show ("u" :: List.replicate 149 "u") = List.replicate 150 "u" from rfl,
      List.take_replicate]
    norm_num]
  rw [show ("u" :: List.replicate 49 "u").take 100 = List.replicate 50 "u" by
    rw [show ("u" :: List.replicate 49 "u") = List.replicate 50 "u" from rfl,
      List.take_replicate]
    norm_num]
  simp

/-- C4: for N input URIs (N > 0), the Playlist Writer posts exactly
`⌈N/100⌉` batches, each of at most 100 URIs, strictly in input order (their
concatenation is the input sequence); for N = 250 the batch sizes are
[100, 100, 50] in that order. -/
theorem playlistWriter_batches (uris : List String) (_h : uris ≠ []) :
    ((addTracksToPlaylist (fun _ => Except.ok ()) uris 0).2.1.flatten = uris ∧
     (addTracksToPlaylist (fun _ => Except.ok ()) uris 0).2.1.length =
       (uris.length + 99) / 100 ∧
     ∀ b ∈ (addTracksToPlaylist (fun _ => Except.ok ()) uris 0).2.1,
       b.length ≤ 100) ∧
    ((addTracksToPlaylist (fun _ => Except.ok ())
        (List.replicate 250 "u") 0).2.1).map List.length = [100, 100, 50] :=
  ⟨addTracks_batch_spec uris.length uris 0 le_rfl, addTracks_replicate250⟩

/-- Witness for C4 at a single-URI input. -/
theorem playlistWriter_batches_witness :
    (["a"] : List String) ≠ [] ∧
    (((addTracksToPlaylist (fun _ => Except.ok ()) ["a"] 0).2.1.flatten = ["a"] ∧
      (addTracksToPlaylist (fun _ => Except.ok ()) ["a"] 0).2.1.length =
        ((["a"] : List String).length + 99) / 100 ∧
      ∀ b ∈ (addTracksToPlaylist (fun _ => Except.ok ()) ["a"] 0).2.1,
        b.length ≤ 100) ∧
     ((addTracksToPlaylist (fun _ => Except.ok ())
        (List.replicate 250 "u") 0).2.1).map List.length = [100, 100, 50]) :=
  ⟨by decide, playlistWriter_batches ["a"] (by decide)⟩

/-! ## The token exchanger (claim C6) -/

/-- C6 counterexample: on a success response whose body lacks the
access-token field, `getAccessToken` does not fail — it returns the absent
field value instead of an error. -/
theorem getAccessToken_missingField_counterexample :
    getAccessToken (Except.ok ⟨none⟩) = Except.ok none ∧
    ∀ e, getAccessToken (Except.ok ⟨none⟩) ≠ Except.error e := by
  refine ⟨rfl, ?_⟩
  intro e
  simp [getAccessToken]

/-- C6 amended: the exchanger fails, propagating the upstream error payload,
exactly when the HTTP response is non-success; on success it returns the
value of the access-token field, which is simply absent (not an error) when
the body lacks it. -/
theorem getAccessToken_spec :
    (∀ e : ApiError, getAccessToken (Except.error e) = Except.error e) ∧
    (∀ d : TokenResponse, getAccessToken (Except.ok d) = Except.ok d.access_token) :=
  ⟨fun _ => rfl, fun _ => rfl⟩

/-! ## Pipeline control flow (claims C5, C7, C9) -/

/-- The starting offset is always among the offsets a terminating pagination
loop requested. -/
theorem searchLoop_offset_mem (page : Nat → Except ApiError SearchPage) :
    ∀ (fuel : Nat) (albums : List Album) (offset : Nat)
      (evs : List ProgressEvent) (offs : List Nat)
      (res : Except ApiError (List Album)),
      searchLoop page fuel albums offset = (evs, offs, some res) →
      offset ∈ offs := by
  intro fuel
  induction fuel with
  | zero =>
    intro albums offset evs offs res h
    simp [searchLoop] at h
  | succ f _ =>
    intro albums offset evs offs res h
    simp only [searchLoop] at h
    cases hk : page offset with
    | error e =>
      rw [hk] at h
      simp only [Prod.mk.injEq] at h
      rw [← h.2.1]
      simp
    | ok resp =>
      rw [hk] at h
      simp only [] at h
      by_cases hcond : offset + 50 < resp.total
      · rw [if_pos hcond] at h
        simp only [Prod.mk.injEq] at h
        rw [← h.2.1]
        simp
      · rw [if_neg hcond] at h
        simp only [Prod.mk.injEq] at h
        rw [← h.2.1]
        simp

/-- A platform used to exercise the empty-label run: token exchange and
profile lookup succeed and the search matches nothing. -/
def emptyLabelEnv : Env where
  tokenExchange := .ok ⟨some "tok"⟩
  profile := fun _ => .ok ⟨"user1", "User One"⟩
  search := fun _ _ _ => .ok ⟨[], 0⟩
  albumTracks := fun _ _ => .ok []
  createPlaylist := fun _ _ _ => .ok ⟨"pl", "PL", "url"⟩
  addTracks := fun _ _ _ => .ok ()

/-- C7 counterexample: a run started with the empty label is not rejected —
no InputError exists anywhere in the code — and the search request is issued
with the query built from the empty label; here the run even ends in the
ordinary no-tracks outcome. -/
theorem emptyLabel_counterexample :
    ∃ r, runCallback emptyLabelEnv 1 (some "code") "" = some r ∧
      ApiCall.search (searchQuery "") 0 ∈ r.calls ∧
      r.outcome = RunOutcome.noTracksFound := by
  refine ⟨_, rfl, ?_, rfl⟩
  simp [runCallback, getAccessToken, emptyLabelEnv, searchLoop, collectTracks,
    collectStage]

/-- Every call the playlist stage issues comes after the already-accumulated
call list. -/
theorem playlistStage_calls (env : Env) (accessToken : Option String)
    (userId label : String) (events2 : List ProgressEvent)
    (calls2 : List ApiCall) (allTracks : List Track) :
    ∃ rest, (playlistStage env accessToken userId label events2 calls2
      allTracks).calls = calls2 ++ rest := by
  simp only [playlistStage]
  split
  · exact ⟨_, rfl⟩
  · split
    · exact ⟨_, List.append_assoc _ _ _⟩
    · exact ⟨_, List.append_assoc _ _ _⟩

/-- Every call the collection stage issues comes after the
already-accumulated call list. -/
theorem collectStage_calls (env : Env) (accessToken : Option String)
    (userId label : String) (albumsCount : Nat)
    (events1 : List ProgressEvent) (calls1 : List ApiCall)
    (albums : List Album) :
    ∃ rest, (collectStage env accessToken userId label albumsCount
      events1 calls1 albums).calls = calls1 ++ rest := by
  simp only [collectStage]
  split
  · exact ⟨_, rfl⟩
  · split
    · exact ⟨_, rfl⟩
    · obtain ⟨rest, hrest⟩ := playlistStage_calls env accessToken userId label
        _ (calls1 ++ (collectTracks (env.albumTracks accessToken)
          albums).2.1.map ApiCall.albumTracks) _
      exact ⟨_, by rw [hrest]; exact List.append_assoc _ _ _⟩

/-- C7 amended: runs with a missing or empty label are not validated: for
every platform on which the stages before the search succeed (and the
pagination loop terminates), the run proceeds and issues the search request
carrying the query `label:""` built from the empty label. -/
theorem emptyLabel_search_issued (env : Env) (fuel : Nat) (c : String)
    (tok : TokenResponse) (user : UserProfile)
    (sevs : List ProgressEvent) (soffs : List Nat)
    (res : Except ApiError (List Album))
    (hT : env.tokenExchange = .ok tok)
    (hP : env.profile tok.access_token = .ok user)
    (hS : searchLoop (env.search tok.access_token (searchQuery "")) fuel [] 0 =
      (sevs, soffs, some res)) :
    ∃ r, runCallback env fuel (some c) "" = some r ∧
      ApiCall.search (searchQuery "") 0 ∈ r.calls := by
  have h0 : 0 ∈ soffs := searchLoop_offset_mem _ fuel [] 0 sevs soffs res hS
  have hmem1 : ApiCall.search (searchQuery "") 0 ∈
      ([ApiCall.tokenExchange, ApiCall.profile] ++
        soffs.map (ApiCall.search (searchQuery ""))) :=
    List.mem_append_right _ (List.mem_map_of_mem _ h0)
  simp only [runCallback, getAccessToken, hT, hP, hS]
  cases res with
  | error e => exact ⟨_, rfl, hmem1⟩
  | ok albums =>
    obtain ⟨rest, hrest⟩ := collectStage_calls env tok.access_token user.id ""
      albums.length ([⟨"Received authorization code.", 10, none⟩,
        ⟨"Access token received.", 20, none⟩,
        ⟨loggedInMsg user, 30, none⟩] ++ sevs)
      ([ApiCall.tokenExchange, ApiCall.profile] ++
        soffs.map (ApiCall.search (searchQuery ""))) albums
    refine ⟨_, rfl, ?_⟩
    rw [hrest]
    exact List.mem_append_left _ hmem1

/-- Witness for the amended C7 on the concrete no-match platform. -/
theorem emptyLabel_search_issued_witness :
    ∃ r, runCallback emptyLabelEnv 1 (some "code") "" = some r ∧
      ApiCall.search (searchQuery "") 0 ∈ r.calls :=
  emptyLabel_search_issued emptyLabelEnv 1 "code" ⟨some "tok"⟩
    ⟨"user1", "User One"⟩ [⟨fetchedAlbumsMsg 0 0, 40, none⟩] [0]
    (Except.ok []) rfl rfl rfl

/-- C5: a failure at any pipeline stage halts the run there: the outcome is
the single terminal failure response (the catch block's generic user-facing
message) and no downstream API call is issued.  Stated for every failing
call site of the run: token exchange (nothing further is called), profile
lookup (nothing beyond the two calls made), a search page (no album-tracks,
create-playlist or add-tracks call — the Playlist Writer is never invoked
when Search failed), an album-tracks fetch (no create-playlist or add-tracks
call), playlist creation (no add-tracks call), and an add-tracks batch (the
last stage: the run still ends in the single failure response, with the
posted batches ending at the failing one). -/
theorem pipeline_haltsOnFailure :
    (∀ (env : Env) (fuel : Nat) (c label : String) (e : ApiError),
      env.tokenExchange = .error e →
      runCallback env fuel (some c) label =
        some ⟨[⟨"Received authorization code.", 10, none⟩],
          [ApiCall.tokenExchange], .failed errorProcessingMsg⟩) ∧
    (∀ (env : Env) (fuel : Nat) (c label : String) (tok : TokenResponse)
      (e : ApiError),
      env.tokenExchange = .ok tok →
      env.profile tok.access_token = .error e →
      runCallback env fuel (some c) label =
        some ⟨[⟨"Received authorization code.", 10, none⟩,
          ⟨"Access token received.", 20, none⟩],
          [ApiCall.tokenExchange, ApiCall.profile],
          .failed errorProcessingMsg⟩) ∧
    (∀ (env : Env) (fuel : Nat) (c label : String) (tok : TokenResponse)
      (user : UserProfile) (sevs : List ProgressEvent) (soffs : List Nat)
      (e : ApiError),
      env.tokenExchange = .ok tok →
      env.profile tok.access_token = .ok user →
      searchLoop (env.search tok.access_token (searchQuery label)) fuel [] 0 =
        (sevs, soffs, some (.error e)) →
      ∃ r, runCallback env fuel (some c) label = some r ∧
        r.outcome = .failed errorProcessingMsg ∧
        (∀ a, ApiCall.albumTracks a ∉ r.calls) ∧
        (∀ u, ApiCall.createPlaylist u ∉ r.calls) ∧
        (∀ b, ApiCall.addTracks b ∉ r.calls)) ∧
    (∀ (env : Env) (fuel : Nat) (c label : String) (tok : TokenResponse)
      (user : UserProfile) (sevs : List ProgressEvent) (soffs : List Nat)
      (albums : List Album) (cevs : List ProgressEvent) (cids : List String)
      (e : ApiError),
      env.tokenExchange = .ok tok →
      env.profile tok.access_token = .ok user →
      searchLoop (env.search tok.access_token (searchQuery label)) fuel [] 0 =
        (sevs, soffs, some (.ok albums)) →
      collectTracks (env.albumTracks tok.access_token) albums =
        (cevs, cids, .error e) →
      ∃ r, runCallback env fuel (some c) label = some r ∧
        r.outcome = .failed errorProcessingMsg ∧
        (∀ u, ApiCall.createPlaylist u ∉ r.calls) ∧
        (∀ b, ApiCall.addTracks b ∉ r.calls)) ∧
    (∀ (env : Env) (fuel : Nat) (c label : String) (tok : TokenResponse)
      (user : UserProfile) (sevs : List ProgressEvent) (soffs : List Nat)
      (albums : List Album) (cevs : List ProgressEvent) (cids : List String)
      (allTracks : List Track) (e : ApiError),
      env.tokenExchange = .ok tok →
      env.profile tok.access_token = .ok user →
      searchLoop (env.search tok.access_token (searchQuery label)) fuel [] 0 =
        (sevs, soffs, some (.ok albums)) →
      collectTracks (env.albumTracks tok.access_token) albums =
        (cevs, cids, .ok allTracks) →
      allTracks ≠ [] →
      env.createPlaylist tok.access_token user.id label = .error e →
      ∃ r, runCallback env fuel (some c) label = some r ∧
        r.outcome = .failed errorProcessingMsg ∧
        (∀ b, ApiCall.addTracks b ∉ r.calls)) ∧
    (∀ (env : Env) (fuel : Nat) (c label : String) (tok : TokenResponse)
      (user : UserProfile) (sevs : List ProgressEvent) (soffs : List Nat)
      (albums : List Album) (cevs : List ProgressEvent) (cids : List String)
      (allTracks : List Track) (pl : Playlist) (aevs : List ProgressEvent)
      (batches : List (List String)) (e : ApiError),
      env.tokenExchange = .ok tok →
      env.profile tok.access_token = .ok user →
      searchLoop (env.search tok.access_token (searchQuery label)) fuel [] 0 =
        (sevs, soffs, some (.ok albums)) →
      collectTracks (env.albumTracks tok.access_token) albums =
        (cevs, cids, .ok allTracks) →
      allTracks ≠ [] →
      env.createPlaylist tok.access_token user.id label = .ok pl →
      addTracksToPlaylist (env.addTracks tok.access_token pl.id)
        ((sortTracks allTracks).map Track.uri) 0 =
        (aevs, batches, .error e) →
      ∃ r, runCallback env fuel (some c) label = some r ∧
        r.outcome = .failed errorProcessingMsg) := by
  refine ⟨?_, ?_, ?_, ?_, ?_, ?_⟩
  · intro env fuel c label e hE
    simp only [runCallback, hE, getAccessToken]
  · intro env fuel c label tok e hT hP
    simp only [runCallback, getAccessToken, hT, hP]
  · intro env fuel c label tok user sevs soffs e hT hP hS
    simp only [runCallback, getAccessToken, hT, hP, hS]
    refine ⟨_, rfl, rfl, ?_, ?_, ?_⟩ <;> intro x <;> simp
  · intro env fuel c label tok user sevs soffs albums cevs cids e hT hP hS hC
    simp only [runCallback, getAccessToken, hT, hP, hS, collectStage, hC]
    refine ⟨_, rfl, rfl, ?_, ?_⟩ <;> intro x <;> simp
  · intro env fuel c label tok user sevs soffs albums cevs cids allTracks e
      hT hP hS hC hne hCP
    have hemp : allTracks.isEmpty = false := by
      simpa [List.isEmpty_iff] using hne
    simp only [runCallback, getAccessToken, hT, hP, hS, collectStage, hC,
      hemp, Bool.false_eq_true, if_false, playlistStage, hCP]
    refine ⟨_, rfl, rfl, ?_⟩
    intro x
    simp
  · intro env fuel c label tok user sevs soffs albums cevs cids allTracks pl
      aevs batches e hT hP hS hC hne hCP hA
    have hemp : allTracks.isEmpty = false := by
      simpa [List.isEmpty_iff] using hne
    simp only [runCallback, getAccessToken, hT, hP, hS, collectStage, hC,
      hemp, Bool.false_eq_true, if_false, playlistStage, hCP, hA]
    exact ⟨_, rfl, rfl⟩

/-- A platform whose token exchange fails. -/
def tokenFailEnv : Env where
  tokenExchange := .error ⟨"HTTP 400"⟩
  profile := fun _ => .error ⟨"unreached2"⟩
  search := fun _ _ _ => .error ⟨"unreached2"⟩
  albumTracks := fun _ _ => .error ⟨"unreached2"⟩
  createPlaylist := fun _ _ _ => .error ⟨"unreached2"⟩
  addTracks := fun _ _ _ => .error ⟨"unreached2"⟩

/-- A platform whose profile lookup fails. -/
def profileFailEnv : Env where
  tokenExchange := .ok ⟨some "tok"⟩
  profile := fun _ => .error ⟨"HTTP 500"⟩
  search := fun _ _ _ => .error ⟨"unreached3"⟩
  albumTracks := fun _ _ => .error ⟨"unreached3"⟩
  createPlaylist := fun _ _ _ => .error ⟨"unreached3"⟩
  addTracks := fun _ _ _ => .error ⟨"unreached3"⟩

/-- A platform whose second search page fails with HTTP 500 (the claim's
example: first page reports a total of 60, so a second page is requested). -/
def searchFailEnv : Env where
  tokenExchange := .ok ⟨some "tok"⟩
  profile := fun _ => .ok ⟨"user1", "User One"⟩
  search := fun _ _ off =>
    if off = 0 then .ok ⟨[⟨"al1", "Album One", 0⟩], 60⟩
    else .error ⟨"HTTP 500"⟩
  albumTracks := fun _ _ => .ok []
  createPlaylist := fun _ _ _ => .ok ⟨"pl", "PL", "url"⟩
  addTracks := fun _ _ _ => .ok ()

/-- A platform whose album-tracks fetch fails. -/
def albumFailEnv : Env where
  tokenExchange := .ok ⟨some "tok"⟩
  profile := fun _ => .ok ⟨"user1", "User One"⟩
  search := fun _ _ _ => .ok ⟨[⟨"al1", "Album One", 0⟩], 1⟩
  albumTracks := fun _ _ => .error ⟨"HTTP 500"⟩
  createPlaylist := fun _ _ _ => .ok ⟨"pl", "PL", "url"⟩
  addTracks := fun _ _ _ => .ok ()

/-- A platform whose create-playlist call fails. -/
def createFailEnv : Env where
  tokenExchange := .ok ⟨some "tok"⟩
  profile := fun _ => .ok ⟨"user1", "User One"⟩
  search := fun _ _ _ => .ok ⟨[⟨"al1", "Album One", 0⟩], 1⟩
  albumTracks := fun _ _ => .ok [⟨"uri1", 1⟩]
  createPlaylist := fun _ _ _ => .error ⟨"HTTP 500"⟩
  addTracks := fun _ _ _ => .ok ()

/-- A platform whose add-tracks call fails. -/
def addFailEnv : Env where
  tokenExchange := .ok ⟨some "tok"⟩
  profile := fun _ => .ok ⟨"user1", "User One"⟩
  search := fun _ _ _ => .ok ⟨[⟨"al1", "Album One", 0⟩], 1⟩
  albumTracks := fun _ _ => .ok [⟨"uri1", 1⟩]
  createPlaylist := fun _ _ _ => .ok ⟨"pl", "PL", "url"⟩
  addTracks := fun _ _ _ => .error ⟨"HTTP 500"⟩

/-- Witness for C5: each stage case applied on a concrete platform failing
at that stage (the search case uses a failure injected at the second search
page, the claim's example). -/
theorem pipeline_haltsOnFailure_witness :
    (runCallback tokenFailEnv 1 (some "code") "L" =
      some ⟨[⟨"Received authorization code.", 10, none⟩],
        [ApiCall.tokenExchange], .failed errorProcessingMsg⟩) ∧
    (runCallback profileFailEnv 1 (some "code") "L" =
      some ⟨[⟨"Received authorization code.", 10, none⟩,
        ⟨"Access token received.", 20, none⟩],
        [ApiCall.tokenExchange, ApiCall.profile],
        .failed errorProcessingMsg⟩) ∧
    (∃ r, runCallback searchFailEnv 2 (some "code") "L" = some r ∧
      r.outcome = .failed errorProcessingMsg ∧
      (∀ a, ApiCall.albumTracks a ∉ r.calls) ∧
      (∀ u, ApiCall.createPlaylist u ∉ r.calls) ∧
      (∀ b, ApiCall.addTracks b ∉ r.calls)) ∧
    (∃ r, runCallback albumFailEnv 1 (some "code") "L" = some r ∧
      r.outcome = .failed errorProcessingMsg ∧
      (∀ u, ApiCall.createPlaylist u ∉ r.calls) ∧
      (∀ b, ApiCall.addTracks b ∉ r.calls)) ∧
    (∃ r, runCallback createFailEnv 1 (some "code") "L" = some r ∧
      r.outcome = .failed errorProcessingMsg ∧
      (∀ b, ApiCall.addTracks b ∉ r.calls)) ∧
    (∃ r, runCallback addFailEnv 1 (some "code") "L" = some r ∧
      r.outcome = .failed errorProcessingMsg) :=
  ⟨pipeline_haltsOnFailure.1 tokenFailEnv 1 "code" "L" ⟨"HTTP 400"⟩ rfl,
   pipeline_haltsOnFailure.2.1 profileFailEnv 1 "code" "L" ⟨some "tok"⟩
     ⟨"HTTP 500"⟩ rfl rfl,
   pipeline_haltsOnFailure.2.2.1 searchFailEnv 2 "code" "L" ⟨some "tok"⟩
     ⟨"user1", "User One"⟩ [⟨fetchedAlbumsMsg 1 60, 40, none⟩] [0, 50]
     ⟨"HTTP 500"⟩ rfl rfl rfl,
   pipeline_haltsOnFailure.2.2.2.1 albumFailEnv 1 "code" "L" ⟨some "tok"⟩
     ⟨"user1", "User One"⟩ [⟨fetchedAlbumsMsg 1 1, 40, none⟩] [0]
     [⟨"al1", "Album One", 0⟩] [] ["al1"] ⟨"HTTP 500"⟩ rfl rfl rfl rfl,
   pipeline_haltsOnFailure.2.2.2.2.1 createFailEnv 1 "code" "L" ⟨some "tok"⟩
     ⟨"user1", "User One"⟩ [⟨fetchedAlbumsMsg 1 1, 40, none⟩] [0]
     [⟨"al1", "Album One", 0⟩] [⟨processedAlbumMsg "Album One", 45, none⟩]
     ["al1"] [⟨"uri1", 0, 1⟩] ⟨"HTTP 500"⟩ rfl rfl rfl rfl
     (by decide) rfl,
   pipeline_haltsOnFailure.2.2.2.2.2 addFailEnv 1 "code" "L" ⟨some "tok"⟩
     ⟨"user1", "User One"⟩ [⟨fetchedAlbumsMsg 1 1, 40, none⟩] [0]
     [⟨"al1", "Album One", 0⟩] [⟨processedAlbumMsg "Album One", 45, none⟩]
     ["al1"] [⟨"uri1", 0, 1⟩] ⟨"pl", "PL", "url"⟩ [] [["uri1"]]
     ⟨"HTTP 500"⟩ rfl rfl rfl rfl (by decide) rfl
     (by
       rw [show (sortTracks [(⟨"uri1", 0, 1⟩ : Track)]).map Track.uri =
         ["uri1"] by simp [sortTracks]];
       simp [addTracksToPlaylist, addFailEnv])⟩

/-- C9: when the collection loop produces zero tracks (no matching release,
or all track listings empty), the run ends early in the no-tracks outcome,
emitting the "No tracks found" event at 50%, and neither the create-playlist
call nor any add-tracks call is issued. -/
theorem pipeline_noTracksFound (env : Env) (fuel : Nat) (c label : String)
    (tok : TokenResponse) (user : UserProfile)
    (sevs : List ProgressEvent) (soffs : List Nat) (albums : List Album)
    (cevs : List ProgressEvent) (cids : List String)
    (hT : env.tokenExchange = .ok tok)
    (hP : env.profile tok.access_token = .ok user)
    (hS : searchLoop (env.search tok.access_token (searchQuery label)) fuel [] 0 =
      (sevs, soffs, some (.ok albums)))
    (hC : collectTracks (env.albumTracks tok.access_token) albums =
      (cevs, cids, .ok [])) :
    ∃ r, runCallback env fuel (some c) label = some r ∧
      r.outcome = .noTracksFound ∧
      (⟨noTracksMsg label, 50, none⟩ : ProgressEvent) ∈ r.events ∧
      (∀ u, ApiCall.createPlaylist u ∉ r.calls) ∧
      (∀ b, ApiCall.addTracks b ∉ r.calls) := by
  simp only [runCallback, getAccessToken, hT, hP, hS, collectStage, hC,
    List.isEmpty_nil, if_true]
  refine ⟨_, rfl, rfl, ?_, ?_, ?_⟩
  · simp
  · intro u
    simp
  · intro b
    simp

/-- A platform with one matching release whose track listing is empty. -/
def noTracksEnv : Env where
  tokenExchange := .ok ⟨some "tok"⟩
  profile := fun _ => .ok ⟨"user1", "User One"⟩
  search := fun _ _ _ => .ok ⟨[⟨"al1", "Album One", 0⟩], 1⟩
  albumTracks := fun _ _ => .ok []
  createPlaylist := fun _ _ _ => .ok ⟨"pl", "PL", "url"⟩
  addTracks := fun _ _ _ => .ok ()

/-- Witness for C9 on the empty-track-listing platform. -/
theorem pipeline_noTracksFound_witness :
    ∃ r, runCallback noTracksEnv 1 (some "code") "L" = some r ∧
      r.outcome = .noTracksFound ∧
      (⟨noTracksMsg "L", 50, none⟩ : ProgressEvent) ∈ r.events ∧
      (∀ u, ApiCall.createPlaylist u ∉ r.calls) ∧
      (∀ b, ApiCall.addTracks b ∉ r.calls) :=
  pipeline_noTracksFound noTracksEnv 1 "code" "L" ⟨some "tok"⟩
    ⟨"user1", "User One"⟩ [⟨fetchedAlbumsMsg 1 1, 40, none⟩] [0]
    [⟨"al1", "Album One", 0⟩] [⟨processedAlbumMsg "Album One", 45, none⟩]
    ["al1"] rfl rfl rfl rfl

/-! ## Progress-event monotonicity (claim C8) -/

/-- Every event the pagination loop emits carries percent 40. -/
theorem searchLoop_events_percent (page : Nat → Except ApiError SearchPage) :
    ∀ (fuel : Nat) (albums : List Album) (offset : Nat),
      ∀ e ∈ (searchLoop page fuel albums offset).1, e.percent = 40 := by
  intro fuel
  induction fuel with
  | zero =>
    intro albums offset e he
    simp [searchLoop] at he
  | succ f ih =>
    intro albums offset e he
    simp only [searchLoop] at he
    cases hk : page offset with
    | error er =>
      rw [hk] at he
      simp at he
    | ok resp =>
      rw [hk] at he
      simp only [] at he
      by_cases hcond : offset + 50 < resp.total
      · rw [if_pos hcond] at he
        simp only [List.mem_cons] at he
        rcases he with he | he
        · rw [he]
        · exact ih _ _ e he
      · rw [if_neg hcond] at he
        simp only [List.mem_singleton] at he
        rw [he]

/-- Every event the collection loop emits carries percent 45. -/
theorem collectTracks_events_percent
    (fetch : String → Except ApiError (List RawTrack)) :
    ∀ (albums : List Album),
      ∀ e ∈ (collectTracks fetch albums).1, e.percent = 45 := by
  intro albums
  induction albums with
  | nil =>
    intro e he
    simp [collectTracks] at he
  | cons album rest ih =>
    intro e he
    simp only [collectTracks] at he
    cases hk : fetch album.id with
    | error er =>
      rw [hk] at he
      simp at he
    | ok items =>
      rw [hk] at he
      simp only [List.mem_cons] at he
      rcases he with he | he
      · rw [he]
      · exact ih e he

/-- Every event the batching loop emits carries percent 90. -/
theorem addTracks_events_percent (post : List String → Except ApiError Unit) :
    ∀ (n : Nat) (uris : List String) (k : Nat), uris.length ≤ n →
      ∀ e ∈ (addTracksToPlaylist post uris k).1, e.percent = 90 := by
  intro n
  induction n with
  | zero =>
    intro uris k h e he
    have he2 : uris = [] := List.eq_nil_of_length_eq_zero (Nat.le_zero.mp h)
    subst he2
    simp [addTracksToPlaylist] at he
  | succ n ih =>
    intro uris k h e he
    cases uris with
    | nil => simp [addTracksToPlaylist] at he
    | cons u rest =>
      simp only [addTracksToPlaylist] at he
      cases hk : post ((u :: rest).take 100) with
      | error er =>
        rw [hk] at he
        simp at he
      | ok u2 =>
        rw [hk] at he
        simp only [List.mem_cons] at he
        rcases he with he | he
        · rw [he]
        · refine ih ((u :: rest).drop 100) (k + 1) ?_ e he
          simp only [List.length_drop, List.length_cons] at h ⊢
          omega

/-- Extending a run's event list by a block of constant-percent events no
smaller than everything emitted so far preserves monotonicity and yields the
block's percent as the new bound. -/
theorem progress_extend (l₁ l₂ : List ProgressEvent) (c : Nat)
    (h1 : (l₁.map ProgressEvent.percent).Pairwise (· ≤ ·))
    (hb1 : ∀ e ∈ l₁, e.percent ≤ c)
    (h2 : ∀ e ∈ l₂, e.percent = c) :
    ((l₁ ++ l₂).map ProgressEvent.percent).Pairwise (· ≤ ·) ∧
    ∀ e ∈ l₁ ++ l₂, e.percent ≤ c := by
  constructor
  · rw [List.map_append, List.pairwise_append]
    refine ⟨h1, ?_, ?_⟩
    · apply List.pairwise_of_forall_mem_list
      intro a ha b hb
      simp only [List.mem_map] at ha hb
      obtain ⟨ea, hea, ha2⟩ := ha
      obtain ⟨eb, heb, hb2⟩ := hb
      rw [← ha2, ← hb2, h2 ea hea, h2 eb heb]
    · intro x hx y hy
      simp only [List.mem_map] at hx hy
      obtain ⟨ex, hex, hx2⟩ := hx
      obtain ⟨ey, hey, hy2⟩ := hy
      rw [← hx2, ← hy2, h2 ey hey]
      exact hb1 ex hex
  · intro e he
    rcases List.mem_append.mp he with he | he
    · exact hb1 e he
    · exact Nat.le_of_eq (h2 e he)

/-- Monotonicity through the playlist stage: events accumulated so far are
nondecreasing and at most 65, and every extension the stage makes (65, 80,
the 90-blocks, 100) keeps the sequence nondecreasing and at most 100. -/
theorem playlistStage_progress (env : Env) (acc : Option String)
    (uid label : String) (events2 : List ProgressEvent)
    (calls2 : List ApiCall) (allTracks : List Track)
    (h1 : (events2.map ProgressEvent.percent).Pairwise (· ≤ ·))
    (hb : ∀ e ∈ events2, e.percent ≤ 65) :
    ((playlistStage env acc uid label events2 calls2 allTracks).events.map
        ProgressEvent.percent).Pairwise (· ≤ ·) ∧
    ∀ e ∈ (playlistStage env acc uid label events2 calls2 allTracks).events,
      e.percent ≤ 100 := by
  have h65 := progress_extend events2
    [⟨totalTracksMsg allTracks.length, 65, none⟩] 65 h1 hb
    (by intro e he; simp only [List.mem_singleton] at he; rw [he])
  simp only [playlistStage]
  split
  · exact ⟨h65.1, fun e he => le_trans (h65.2 e he) (by norm_num)⟩
  · rename_i pl heq
    have h80 := progress_extend _
      [⟨createdPlaylistMsg pl.name, 80, none⟩] 80 h65.1
      (fun e he => le_trans (h65.2 e he) (by norm_num))
      (by intro e he; simp only [List.mem_singleton] at he; rw [he])
    have h90 := progress_extend _
      (addTracksToPlaylist (env.addTracks acc pl.id)
        ((sortTracks allTracks).map Track.uri) 0).1 90 h80.1
      (fun e he => le_trans (h80.2 e he) (by norm_num))
      (addTracks_events_percent (env.addTracks acc pl.id)
        ((sortTracks allTracks).map Track.uri).length
        ((sortTracks allTracks).map Track.uri) 0 le_rfl)
    have hshape : events2 ++ [⟨totalTracksMsg allTracks.length, 65, none⟩,
        ⟨createdPlaylistMsg pl.name, 80, none⟩] =
        (events2 ++ [⟨totalTracksMsg allTracks.length, 65, none⟩]) ++
          [⟨createdPlaylistMsg pl.name, 80, none⟩] := by simp
    split
    · rw [hshape]
      exact ⟨h90.1, fun e he => le_trans (h90.2 e he) (by norm_num)⟩
    · have h90c := progress_extend _
        [⟨"All tracks added to the playlist successfully.", 90, none⟩] 90
        h90.1 h90.2
        (by intro e he; simp only [List.mem_singleton] at he; rw [he])
      have h100 := progress_extend _
        [⟨"Processing complete. Check the main page for progress updates.",
          100, some pl.external_url⟩] 100 h90c.1
        (fun e he => le_trans (h90c.2 e he) (by norm_num))
        (by intro e he; simp only [List.mem_singleton] at he; rw [he])
      have hshape2 : ∀ (l : List ProgressEvent) (a b : ProgressEvent),
          l ++ [a, b] = (l ++ [a]) ++ [b] := by intro l a b; simp
      rw [hshape, hshape2]
      exact ⟨h100.1, h100.2⟩

/-- Monotonicity through the collection stage and beyond. -/
theorem collectStage_progress (env : Env) (acc : Option String)
    (uid label : String) (n : Nat) (events1 : List ProgressEvent)
    (calls1 : List ApiCall) (albums : List Album)
    (h1 : (events1.map ProgressEvent.percent).Pairwise (· ≤ ·))
    (hb : ∀ e ∈ events1, e.percent ≤ 40) :
    ((collectStage env acc uid label n events1 calls1 albums).events.map
        ProgressEvent.percent).Pairwise (· ≤ ·) ∧
    ∀ e ∈ (collectStage env acc uid label n events1 calls1 albums).events,
      e.percent ≤ 100 := by
  have h40 := progress_extend events1 [⟨foundAlbumsMsg n label, 40, none⟩] 40
    h1 hb (by intro e he; simp only [List.mem_singleton] at he; rw [he])
  have h45 := progress_extend _ (collectTracks (env.albumTracks acc) albums).1
    45 h40.1 (fun e he => le_trans (h40.2 e he) (by norm_num))
    (collectTracks_events_percent _ albums)
  simp only [collectStage]
  split
  · exact ⟨h45.1, fun e he => le_trans (h45.2 e he) (by norm_num)⟩
  · split
    · have h50 := progress_extend _ [⟨noTracksMsg label, 50, none⟩] 50 h45.1
        (fun e he => le_trans (h45.2 e he) (by norm_num))
        (by intro e he; simp only [List.mem_singleton] at he; rw [he])
      exact ⟨h50.1, fun e he => le_trans (h50.2 e he) (by norm_num)⟩
    · exact playlistStage_progress env acc uid label _ _ _ h45.1
        (fun e he => le_trans (h45.2 e he) (by norm_num))

/-- C8: within any single run, the percent values of the emitted progress
events are monotonically non-decreasing and all lie between 0 and 100
(the lower bound holds because percents are naturals). -/
theorem runCallback_progress (env : Env) (fuel : Nat) (code : Option String)
    (label : String) (r : RunResult)
    (h : runCallback env fuel code label = some r) :
    List.Chain' (· ≤ ·) (r.events.map ProgressEvent.percent) ∧
    ∀ e ∈ r.events, e.percent ≤ 100 := by
  suffices hs : (r.events.map ProgressEvent.percent).Pairwise (· ≤ ·) ∧
      ∀ e ∈ r.events, e.percent ≤ 100 from ⟨hs.1.chain', hs.2⟩
  cases code with
  | none =>
    simp only [runCallback] at h
    injection h with h2
    subst h2
    simp
  | some c =>
    simp only [runCallback] at h
    cases hT : getAccessToken env.tokenExchange with
    | error e =>
      simp only [hT] at h
      injection h with h2
      subst h2
      constructor
      · simp only [List.map_cons, List.map_nil]
        decide
      · intro e he
        simp only [List.mem_singleton] at he
        subst he
        norm_num
    | ok accessToken =>
      simp only [hT] at h
      cases hP : env.profile accessToken with
      | error e2 =>
        simp only [hP] at h
        injection h with h2
        subst h2
        constructor
        · simp only [List.map_cons, List.map_nil]
          decide
        · intro e he
          simp only [List.mem_cons, List.not_mem_nil, or_false] at he
          rcases he with he | he <;> subst he <;> norm_num
      | ok user =>
        simp only [hP] at h
        have base : (([⟨"Received authorization code.", 10, none⟩,
            ⟨"Access token received.", 20, none⟩,
            ⟨loggedInMsg user, 30, none⟩] :
              List ProgressEvent).map ProgressEvent.percent).Pairwise
            (· ≤ ·) := by
          simp only [List.map_cons, List.map_nil]
          decide
        have baseb : ∀ e ∈ ([⟨"Received authorization code.", 10, none⟩,
            ⟨"Access token received.", 20, none⟩,
            ⟨loggedInMsg user, 30, none⟩] : List ProgressEvent),
            e.percent ≤ 40 := by
          intro e he
          simp only [List.mem_cons, List.not_mem_nil, or_false] at he
          rcases he with he | he | he <;> subst he <;> norm_num
        have h40 := progress_extend _
          (searchLoop (env.search accessToken (searchQuery label)) fuel [] 0).1
          40 base baseb (searchLoop_events_percent _ fuel [] 0)
        cases hsr : (searchLoop (env.search accessToken (searchQuery label))
            fuel [] 0).2.2 with
        | none =>
          simp only [hsr] at h
          exact Option.noConfusion h
        | some sres =>
          simp only [hsr] at h
          cases sres with
          | error e3 =>
            injection h with h2
            subst h2
            exact ⟨h40.1, fun e he => le_trans (h40.2 e he) (by norm_num)⟩
          | ok albums =>
            injection h with h2
            subst h2
            exact collectStage_progress env accessToken user.id label
              albums.length _ _ albums h40.1 h40.2

/-- A platform whose token exchange fails, giving a minimal complete run. -/
def progressEnv : Env where
  tokenExchange := .error ⟨"HTTP 400"⟩
  profile := fun _ => .error ⟨"unreached"⟩
  search := fun _ _ _ => .error ⟨"unreached"⟩
  albumTracks := fun _ _ => .error ⟨"unreached"⟩
  createPlaylist := fun _ _ _ => .error ⟨"unreached"⟩
  addTracks := fun _ _ _ => .error ⟨"unreached"⟩

/-- Witness for C8 on a concrete run. -/
theorem runCallback_progress_witness :
    List.Chain' (· ≤ ·)
      ((⟨[⟨"Received authorization code.", 10, none⟩], [ApiCall.tokenExchange],
          .failed errorProcessingMsg⟩ : RunResult).events.map
        ProgressEvent.percent) ∧
    ∀ e ∈ (⟨[⟨"Received authorization code.", 10, none⟩],
        [ApiCall.tokenExchange], .failed errorProcessingMsg⟩ :
          RunResult).events, e.percent ≤ 100 :=
  runCallback_progress progressEnv 1 (some "code") "L"
    ⟨[⟨"Received authorization code.", 10, none⟩], [ApiCall.tokenExchange],
      .failed errorProcessingMsg⟩ rfl
